import Mathlib

/-!
Verification development for the avalanche-ops core: the node identity codec,
the storage namespace (object-store key layout and its inverse parser), the
cluster specification (derivation and validation), the stack lifecycle
manager, and the health prober.

Strings are embedded as `List Char` (named `Str`); the Rust functions of
`src/lib.rs`, `src/avalanche/avalanchego/api/health.rs` and the example
driver are translated into executable Lean definitions below, and the
theorems at the end of the file settle the spec claims against them.
-/

set_option maxRecDepth 100000

namespace AvaOps

/-- Strings of the Rust sources, embedded as lists of characters. -/
abbrev Str := List Char

/-! ## Generic string helpers (embeddings of the std functions the sources call) -/

/-- Embeds Rust `str::split(sep)` collected into a vector: split at every
occurrence of `sep`, keeping empty pieces, so the result has
(number of separators + 1) pieces. -/
def splitOnChar (sep : Char) : Str → List Str
  | [] => [[]]
  | c :: rest =>
    let r := splitOnChar sep rest
    if c = sep then [] :: r
    else
      match r with
      | [] => [[c]]
      | h :: t => (c :: h) :: t

theorem splitOnChar_ne_nil (sep : Char) (l : Str) : splitOnChar sep l ≠ [] := by
  induction l with
  | nil => simp [splitOnChar]
  | cons c rest ih =>
    simp only [splitOnChar]
    split
    · simp
    · match h : splitOnChar sep rest with
      | [] => simp
      | h' :: t => simp

theorem splitOnChar_of_not_mem (sep : Char) (l : Str) (h : sep ∉ l) :
    splitOnChar sep l = [l] := by
  induction l with
  | nil => rfl
  | cons c rest ih =>
    simp only [List.mem_cons, not_or] at h
    have hcs : ¬ c = sep := fun hc => h.1 hc.symm
    simp only [splitOnChar, ih h.2, if_neg hcs]

theorem splitOnChar_append_sep (sep : Char) (a b : Str) (ha : sep ∉ a) :
    splitOnChar sep (a ++ sep :: b) = a :: splitOnChar sep b := by
  induction a with
  | nil => simp [splitOnChar]
  | cons c rest ih =>
    simp only [List.mem_cons, not_or] at ha
    have hcs : ¬ c = sep := fun hc => ha.1 hc.symm
    simp only [List.cons_append, splitOnChar, if_neg hcs]
    have hih : splitOnChar sep (rest.append (sep :: b)) =
        rest :: splitOnChar sep b := ih ha.2
    rw [hih]

/-- Checks whether `p` is a prefix of `l` (embedding of `str::starts_with`
used inside `str::replace`). -/
def hasPrefixL : Str → Str → Bool
  | [], _ => true
  | _ :: _, [] => false
  | a :: as, b :: bs => a = b && hasPrefixL as bs

/-- Fuel-driven scanner for `replaceAll`; one unit of fuel is spent per
examined character, so fuel equal to the list length always suffices. -/
def replaceAllF (pat rep : Str) : Nat → Str → Str
  | _, [] => []
  | 0, l => l
  | f + 1, c :: rest =>
    if pat ≠ [] ∧ hasPrefixL pat (c :: rest) = true then
      rep ++ replaceAllF pat rep f (List.drop (pat.length - 1) rest)
    else
      c :: replaceAllF pat rep f rest

/-- Embeds Rust `str::replace(pat, rep)`: replaces every non-overlapping
occurrence of `pat` (scanning left to right) by `rep`.  The sources only
call it with the non-empty pattern `".yaml"`. -/
def replaceAll (pat rep l : Str) : Str :=
  replaceAllF pat rep l.length l

/-- The part of a path after its last `/`, embedding Rust
`Path::file_name` (`None` when that part is empty).  Rust additionally
normalises `.` and `..` components; no path handled in these sources
contains them as its final component. -/
def fileName (p : Str) : Option Str :=
  let f := (p.reverse.takeWhile (fun c => c ≠ '/')).reverse
  if f.isEmpty then none else some f

theorem takeWhile_append_of_all {p : Char → Bool} (l₁ l₂ : Str)
    (h₁ : ∀ x ∈ l₁, p x = true) :
    (l₁ ++ l₂).takeWhile p = l₁ ++ l₂.takeWhile p := by
  induction l₁ with
  | nil => simp
  | cons c rest ih =>
    simp only [List.cons_append, List.takeWhile_cons,
      h₁ c (List.mem_cons_self c rest), if_pos]
    rw [ih (fun x hx => h₁ x (List.mem_cons_of_mem c hx))]

theorem fileName_append_last (a b : Str) (hb : '/' ∉ b) (hne : b ≠ []) :
    fileName (a ++ '/' :: b) = some b := by
  unfold fileName
  have hrev : (a ++ '/' :: b).reverse = b.reverse ++ '/' :: a.reverse := by
    simp
  rw [hrev]
  have htk : (b.reverse ++ '/' :: a.reverse).takeWhile (fun c => c ≠ '/') =
      b.reverse := by
    rw [takeWhile_append_of_all]
    · simp [List.takeWhile_cons]
    · intro x hx
      simp only [List.mem_reverse] at hx
      simp only [ne_eq, decide_eq_true_eq]
      intro hxeq
      exact hb (hxeq ▸ hx)
  rw [htk]
  simp only [List.reverse_reverse, List.isEmpty_iff]
  rw [if_neg hne]

/-! ## The node identity codec

`node::Node` and its `compress_base58` / `decompress_base58` codec live in
`src/avalanche/node.rs`, which is not among the provided sources (only its
callers and the tests in `src/lib.rs` are).  Modelled from the spec:
"serialize the fields of the identity into a compact, self-delimiting byte
sequence, apply a general-purpose compressor, then encode the compressed
bytes with a base-58 alphabet", with `decode` the exact inverse and any
stage failure reported (spec §4.1); the field list (class, machine id,
node id, public ip, http endpoint) is taken from the Node Identity data
model (spec §3) and the test at the bottom of `src/lib.rs`. -/

/-- A node identity record (spec §3; field names as in the
`src/lib.rs` test at line 1113). -/
structure Node where
  kind : Str
  machine_id : Str
  node_id : Str
  public_ip : Str
  http_endpoint : Str
deriving DecidableEq

/-- The base-58 alphabet
`123456789ABCDEFGHJKLMNPQRSTUVWXYZabcdefghijkmnopqrstuvwxyz`,
as a function from digit value (0–57) to character. -/
def digitChar (d : Nat) : Char :=
  if d < 9 then Char.ofNat (49 + d)
  else if d < 17 then Char.ofNat (65 + (d - 9))
  else if d < 22 then Char.ofNat (74 + (d - 17))
  else if d < 33 then Char.ofNat (80 + (d - 22))
  else if d < 44 then Char.ofNat (97 + (d - 33))
  else Char.ofNat (109 + (d - 44))

/-- Inverse of `digitChar`: the digit value of an alphabet character,
`none` for characters outside the alphabet. -/
def digitVal (c : Char) : Option Nat :=
  let n := c.toNat
  if 49 ≤ n ∧ n ≤ 57 then some (n - 49)
  else if 65 ≤ n ∧ n ≤ 72 then some (9 + (n - 65))
  else if 74 ≤ n ∧ n ≤ 78 then some (17 + (n - 74))
  else if 80 ≤ n ∧ n ≤ 90 then some (22 + (n - 80))
  else if 97 ≤ n ∧ n ≤ 107 then some (33 + (n - 97))
  else if 109 ≤ n ∧ n ≤ 122 then some (44 + (n - 109))
  else none

theorem digitVal_digitChar : ∀ d < 58, digitVal (digitChar d) = some d := by
  decide

/-- Alphabet characters are filename-safe: never an underscore, a dot or a
path separator (spec §4.1). -/
theorem digitChar_safe :
    ∀ d < 58, digitChar d ≠ '_' ∧ digitChar d ≠ '.' ∧ digitChar d ≠ '/' := by
  decide

/-- Non-zero digits are distinct from the first character of the alphabet,
which the codec uses as the separator between encoded numbers. -/
theorem digitChar_ne_sep : ∀ d < 58, 0 < d → digitChar d ≠ digitChar 0 := by
  decide

/-- Fuel-driven digit extraction for `natToB57`; fuel equal to the number
itself always suffices since the quotient shrinks at every step. -/
def natToB57F : Nat → Nat → Str
  | 0, _ => []
  | _ + 1, 0 => []
  | f + 1, n + 1 => digitChar ((n + 1) % 57 + 1) :: natToB57F f ((n + 1) / 57)

/-- Little-endian base-57 digits of a number, using the non-separator part
of the alphabet (digit values 1–57). -/
def natToB57 (n : Nat) : Str := natToB57F n n

/-- Inverse of `natToB57`; fails on any character that is not a non-zero
alphabet digit. -/
def b57ToNat : Str → Option Nat
  | [] => some 0
  | c :: rest =>
    match digitVal c, b57ToNat rest with
    | some v, some m => if 1 ≤ v then some ((v - 1) + 57 * m) else none
    | _, _ => none

theorem b57ToNat_natToB57F : ∀ f n, n ≤ f → b57ToNat (natToB57F f n) = some n := by
  intro f
  induction f with
  | zero =>
    intro n hn
    interval_cases n
    rfl
  | succ f ih =>
    intro n hn
    match n with
    | 0 => rfl
    | m + 1 =>
      have hmod : (m + 1) % 57 + 1 < 58 := by
        have := Nat.mod_lt (m + 1) (y := 57) (by norm_num)
        omega
      have hdiv : (m + 1) / 57 ≤ f := by
        have : (m + 1) / 57 < m + 1 := Nat.div_lt_self (by omega) (by norm_num)
        omega
      simp only [natToB57F, b57ToNat, digitVal_digitChar _ hmod, ih _ hdiv]
      rw [if_pos (by omega)]
      congr 1
      omega

theorem b57ToNat_natToB57 (n : Nat) : b57ToNat (natToB57 n) = some n :=
  b57ToNat_natToB57F n n (Nat.le_refl n)

theorem mem_natToB57F : ∀ f n c, c ∈ natToB57F f n →
    ∃ d, 0 < d ∧ d < 58 ∧ c = digitChar d := by
  intro f
  induction f with
  | zero =>
    intro n c hc
    simp [natToB57F] at hc
  | succ f ih =>
    intro n c hc
    match n with
    | 0 => simp [natToB57F] at hc
    | m + 1 =>
      simp only [natToB57F, List.mem_cons] at hc
      rcases hc with hc | hc
      · refine ⟨(m + 1) % 57 + 1, by omega, ?_, hc⟩
        have := Nat.mod_lt (m + 1) (y := 57) (by norm_num)
        omega
      · exact ih _ c hc

theorem mem_natToB57 (n : Nat) (c : Char) (hc : c ∈ natToB57 n) :
    ∃ d, 0 < d ∧ d < 58 ∧ c = digitChar d :=
  mem_natToB57F n n c hc

/-- Joins pieces with a single separator character between consecutive
pieces. -/
def joinSep (sep : Char) : List Str → Str
  | [] => []
  | [p] => p
  | p :: q :: ps => p ++ sep :: joinSep sep (q :: ps)

theorem splitOnChar_joinSep (sep : Char) (ps : List Str)
    (hne : ps ≠ []) (hsep : ∀ p ∈ ps, sep ∉ p) :
    splitOnChar sep (joinSep sep ps) = ps := by
  induction ps with
  | nil => exact absurd rfl hne
  | cons p ps ih =>
    cases ps with
    | nil =>
      simp only [joinSep]
      exact splitOnChar_of_not_mem sep p (hsep p (List.mem_cons_self p []))
    | cons q ps' =>
      simp only [joinSep]
      rw [splitOnChar_append_sep sep p _ (hsep p (List.mem_cons_self _ _))]
      rw [ih (by simp) (fun r hr => hsep r (List.mem_cons_of_mem p hr))]

/-- Decodes each separator-delimited piece back to a number. -/
def decodePieces : List Str → Option (List Nat)
  | [] => some []
  | p :: ps =>
    match b57ToNat p, decodePieces ps with
    | some n, some ns => some (n :: ns)
    | _, _ => none

theorem decodePieces_map (ns : List Nat) :
    decodePieces (ns.map natToB57) = some ns := by
  induction ns with
  | nil => rfl
  | cons n ns ih => simp only [List.map_cons, decodePieces, b57ToNat_natToB57, ih]

/-- A field serialised as its length followed by its character codes
(the self-delimiting layout of spec §4.1). -/
def serializeField (f : Str) : List Nat :=
  f.length :: f.map Char.toNat

/-- All five identity fields, concatenated. -/
def serializeNode (n : Node) : List Nat :=
  serializeField n.kind ++ serializeField n.machine_id ++
    serializeField n.node_id ++ serializeField n.public_ip ++
    serializeField n.http_endpoint

/-- Reads back one length-prefixed field, returning it with the remaining
numbers. -/
def takeField (l : List Nat) : Option (Str × List Nat) :=
  match l with
  | [] => none
  | len :: rest =>
    if len ≤ rest.length then
      some ((rest.take len).map Char.ofNat, rest.drop len)
    else none

theorem takeField_serializeField (f : Str) (rest : List Nat) :
    takeField (serializeField f ++ rest) = some (f, rest) := by
  simp only [serializeField, List.cons_append, takeField]
  rw [if_pos (by simp)]
  rw [List.take_left' (by simp), List.drop_left' (by simp)]
  simp only [List.map_map]
  have hid : Char.ofNat ∘ Char.toNat = id := funext Char.ofNat_toNat
  rw [hid, List.map_id]

/-- Reads back the five fields of a node identity, requiring that nothing
is left over. -/
def deserializeNode (l : List Nat) : Option Node :=
  match takeField l with
  | none => none
  | some (kind, l1) =>
    match takeField l1 with
    | none => none
    | some (machine_id, l2) =>
      match takeField l2 with
      | none => none
      | some (node_id, l3) =>
        match takeField l3 with
        | none => none
        | some (public_ip, l4) =>
          match takeField l4 with
          | none => none
          | some (http_endpoint, l5) =>
            if l5 = [] then
              some ⟨kind, machine_id, node_id, public_ip, http_endpoint⟩
            else none

theorem deserializeNode_serializeNode (n : Node) :
    deserializeNode (serializeNode n) = some n := by
  obtain ⟨k, m, ni, ip, ep⟩ := n
  simp only [serializeNode, deserializeNode, List.append_assoc]
  rw [takeField_serializeField]
  simp only
  rw [takeField_serializeField]
  simp only
  rw [takeField_serializeField]
  simp only
  rw [takeField_serializeField]
  simp only
  have : serializeField ep = serializeField ep ++ [] := by simp
  rw [this, takeField_serializeField]
  simp

/-- The separator of the codec: the first alphabet character. -/
def sep58 : Char := digitChar 0

/-- Modelled from the spec (§4.1): `node::Node::compress_base58` —
serialise the identity fields into a self-delimiting number sequence and
render it into the base-58 alphabet (numbers in base 57 over the non-zero
digits, delimited by the zero digit).  Deterministic, filename-safe, and
exactly inverted by `Node.decompress_base58`. -/
def Node.compress_base58 (n : Node) : Str :=
  joinSep sep58 ((serializeNode n).map natToB57)

/-- Modelled from the spec (§4.1): `node::Node::decompress_base58` — the
exact inverse of `Node.compress_base58`; any stage failure (bad alphabet
character, malformed field layout) yields `none`. -/
def Node.decompress_base58 (s : Str) : Option Node :=
  match decodePieces (splitOnChar sep58 s) with
  | some l => deserializeNode l
  | none => none

theorem serializeNode_ne_nil (n : Node) : serializeNode n ≠ [] := by
  obtain ⟨k, m, ni, ip, ep⟩ := n
  simp [serializeNode, serializeField]

/-- Codec round-trip (spec §8, "Round-trip"): decoding an encoded identity
recovers it exactly. -/
theorem decompress_compress (n : Node) :
    Node.decompress_base58 (Node.compress_base58 n) = some n := by
  unfold Node.decompress_base58 Node.compress_base58
  rw [splitOnChar_joinSep]
  · rw [decodePieces_map]
    exact deserializeNode_serializeNode n
  · simp [serializeNode_ne_nil n]
  · intro p hp
    simp only [List.mem_map] at hp
    obtain ⟨a, _, rfl⟩ := hp
    intro hmem
    obtain ⟨d, hd0, hd58, hc⟩ := mem_natToB57 a sep58 hmem
    exact digitChar_ne_sep d hd58 hd0 hc.symm

theorem mem_joinSep (sep : Char) (ps : List Str) (c : Char)
    (hc : c ∈ joinSep sep ps) : c = sep ∨ ∃ p ∈ ps, c ∈ p := by
  induction ps with
  | nil => simp [joinSep] at hc
  | cons p ps ih =>
    cases ps with
    | nil =>
      simp only [joinSep] at hc
      exact Or.inr ⟨p, by simp, hc⟩
    | cons q ps' =>
      simp only [joinSep, List.mem_append, List.mem_cons] at hc
      rcases hc with h | h | h
      · exact Or.inr ⟨p, by simp, h⟩
      · exact Or.inl h
      · rcases ih h with h' | ⟨r, hr, hcr⟩
        · exact Or.inl h'
        · exact Or.inr ⟨r, List.mem_cons_of_mem p hr, hcr⟩

/-- Every character of an encoded token is in the base-58 alphabet, hence
never `_`, `.` or `/`. -/
theorem compress_base58_safe (n : Node) (c : Char)
    (hc : c ∈ Node.compress_base58 n) : c ≠ '_' ∧ c ≠ '.' ∧ c ≠ '/' := by
  unfold Node.compress_base58 at hc
  rcases mem_joinSep sep58 _ c hc with rfl | ⟨p, hp, hcp⟩
  · exact digitChar_safe 0 (by norm_num)
  · simp only [List.mem_map] at hp
    obtain ⟨a, _, rfl⟩ := hp
    obtain ⟨d, _, hd58, rfl⟩ := mem_natToB57 a c hcp
    exact digitChar_safe d hd58

/-! ## The storage namespace (src/lib.rs, `StorageNamespace`)

Translated from `StorageNamespace` and its `encode` /
`parse_node_from_path` in `src/lib.rs` (lines 927–1092). -/

def sConfigFile : Str := "/avalanche-ops.config.yaml".toList

def sDevMachineConfigFile : Str := "/dev-machine.config.yaml".toList

def sEc2AccessKey : Str := "/ec2-access-key.zstd.seal_aes_256.encrypted".toList

def sGenesisFile : Str := "/genesis.json".toList

def sAvalanchedBinPath : Str := "/install/avalanched".toList

def sAvalancheBinCompressed : Str := "/install/avalanche.zstd".toList

def sPluginsDirPath : Str := "/install/plugins".toList

def sPkiKeyDir : Str := "/pki".toList

/-- The directory the source uses for BOTH provisioning variants (the
`Anchor` arms of `encode` also format `provisioning-non-anchor-nodes`,
exactly as written at src/lib.rs lines 987–1006). -/
def dirProvisioningNonAnchor : Str := "/discover/provisioning-non-anchor-nodes".toList

def dirBootstrappingAnchor : Str := "/discover/bootstrapping-anchor-nodes".toList

def dirReadyAnchor : Str := "/discover/ready-anchor-nodes".toList

def dirReadyNonAnchor : Str := "/discover/ready-non-anchor-nodes".toList

def sBackupsDir : Str := "/backups".toList

def sEventsUpdateArtifactsEvent : Str := "/events/update-artifacts/event".toList

def sEventsUpdateArtifactsAvalancheBin : Str :=
  "/events/update-artifacts/install/avalanche.zstd".toList

def sEventsUpdateArtifactsPluginsDir : Str :=
  "/events/update-artifacts/install/plugins".toList

def sYaml : Str := ".yaml".toList

theorem sYaml_eq : sYaml = ['.', 'y', 'a', 'm', 'l'] := rfl

/-- The `{machine_id}_{compressed_id}.yaml` file-name part of a per-node
discovery entry. -/
def nodeFileEntry (n : Node) : Str :=
  n.machine_id ++ '_' :: (Node.compress_base58 n ++ sYaml)

/-- The S3/storage key path variants (src/lib.rs lines 927–964). -/
inductive StorageNamespace where
  | ConfigFile (id : Str)
  | DevMachineConfigFile (id : Str)
  | Ec2AccessKeyCompressedEncrypted (id : Str)
  | GenesisFile (id : Str)
  | AvalanchedBin (id : Str)
  | AvalancheBinCompressed (id : Str)
  | PluginsDir (id : Str)
  | PkiKeyDir (id : Str)
  | DiscoverProvisioningAnchorNodesDir (id : Str)
  | DiscoverProvisioningAnchorNode (id : Str) (n : Node)
  | DiscoverProvisioningNonAnchorNodesDir (id : Str)
  | DiscoverProvisioningNonAnchorNode (id : Str) (n : Node)
  | DiscoverBootstrappingAnchorNodesDir (id : Str)
  | DiscoverBootstrappingAnchorNode (id : Str) (n : Node)
  | DiscoverReadyAnchorNodesDir (id : Str)
  | DiscoverReadyAnchorNode (id : Str) (n : Node)
  | DiscoverReadyNonAnchorNodesDir (id : Str)
  | DiscoverReadyNonAnchorNode (id : Str) (n : Node)
  | BackupsDir (id : Str)
  | EventsUpdateArtifactsEvent (id : Str)
  | EventsUpdateArtifactsInstallDirAvalancheBinCompressed (id : Str)
  | EventsUpdateArtifactsInstallDirPluginsDir (id : Str)

/-- Translated from `StorageNamespace::encode` (src/lib.rs lines 967–1054),
format string by format string; note that the two
`DiscoverProvisioningAnchor…` arms use the `provisioning-non-anchor-nodes`
directory, exactly as the source does. -/
def StorageNamespace.encode : StorageNamespace → Str
  | .ConfigFile id => id ++ sConfigFile
  | .DevMachineConfigFile id => id ++ sDevMachineConfigFile
  | .Ec2AccessKeyCompressedEncrypted id => id ++ sEc2AccessKey
  | .GenesisFile id => id ++ sGenesisFile
  | .AvalanchedBin id => id ++ sAvalanchedBinPath
  | .AvalancheBinCompressed id => id ++ sAvalancheBinCompressed
  | .PluginsDir id => id ++ sPluginsDirPath
  | .PkiKeyDir id => id ++ sPkiKeyDir
  | .DiscoverProvisioningAnchorNodesDir id => id ++ dirProvisioningNonAnchor
  | .DiscoverProvisioningAnchorNode id n =>
      id ++ dirProvisioningNonAnchor ++ '/' :: nodeFileEntry n
  | .DiscoverProvisioningNonAnchorNodesDir id => id ++ dirProvisioningNonAnchor
  | .DiscoverProvisioningNonAnchorNode id n =>
      id ++ dirProvisioningNonAnchor ++ '/' :: nodeFileEntry n
  | .DiscoverBootstrappingAnchorNodesDir id => id ++ dirBootstrappingAnchor
  | .DiscoverBootstrappingAnchorNode id n =>
      id ++ dirBootstrappingAnchor ++ '/' :: nodeFileEntry n
  | .DiscoverReadyAnchorNodesDir id => id ++ dirReadyAnchor
  | .DiscoverReadyAnchorNode id n => id ++ dirReadyAnchor ++ '/' :: nodeFileEntry n
  | .DiscoverReadyNonAnchorNodesDir id => id ++ dirReadyNonAnchor
  | .DiscoverReadyNonAnchorNode id n =>
      id ++ dirReadyNonAnchor ++ '/' :: nodeFileEntry n
  | .BackupsDir id => id ++ sBackupsDir
  | .EventsUpdateArtifactsEvent id => id ++ sEventsUpdateArtifactsEvent
  | .EventsUpdateArtifactsInstallDirAvalancheBinCompressed id =>
      id ++ sEventsUpdateArtifactsAvalancheBin
  | .EventsUpdateArtifactsInstallDirPluginsDir id =>
      id ++ sEventsUpdateArtifactsPluginsDir

def msgFileNameNone : Str := "failed Path.file_name (None)".toList

/-- Stands for the formatted "expected two splits" message of the source
(the source interpolates the file name and path; the claims never inspect
the message text). -/
def msgTwoSplits : Str := "expected two splits for underscore".toList

def msgDecompress : Str := "failed node::Node::decompress_base64".toList

/-- Translated from `StorageNamespace::parse_node_from_path` (src/lib.rs
lines 1056–1091): take the file name, split it on `_` into exactly two
pieces (the `[_, compressed_id]` pattern is the check
`splits.len() != 2` of the source plus indexing), strip `.yaml` via `replace`, and
decode the token. -/
def StorageNamespace.parse_node_from_path (storage_path : Str) : Except Str Node :=
  match fileName storage_path with
  | none => Except.error msgFileNameNone
  | some file_name =>
    match splitOnChar '_' file_name with
    | [_, compressed_id] =>
      match Node.decompress_base58 (replaceAll sYaml [] compressed_id) with
      | some node => Except.ok node
      | none => Except.error msgDecompress
    | _ => Except.error msgTwoSplits

theorem replaceAllF_nil (pat rep : Str) (f : Nat) :
    replaceAllF pat rep f [] = [] := by
  cases f <;> rfl

theorem replaceAllF_yaml_suffix :
    ∀ f (t : Str), '.' ∉ t → (t ++ sYaml).length ≤ f →
      replaceAllF sYaml [] f (t ++ sYaml) = t := by
  intro f
  induction f with
  | zero =>
    intro t ht hlen
    exfalso
    simp [sYaml_eq] at hlen
  | succ f ih =>
    intro t ht hlen
    cases t with
    | nil =>
      have h4 : 4 ≤ f := by
        simp only [List.nil_append, sYaml_eq] at hlen ⊢
        simp at hlen
        omega
      rw [List.nil_append, sYaml_eq]
      show replaceAllF sYaml [] (f + 1) ('.' :: ['y', 'a', 'm', 'l']) = []
      rw [replaceAllF]
      rw [if_pos (by constructor <;> simp [sYaml_eq, hasPrefixL])]
      simp only [sYaml_eq, List.nil_append]
      show replaceAllF sYaml [] f (List.drop 4 ['y', 'a', 'm', 'l']) = []
      rw [show List.drop 4 ['y', 'a', 'm', 'l'] = ([] : Str) from rfl]
      exact replaceAllF_nil _ _ f
    | cons c t' =>
      simp only [List.mem_cons, not_or] at ht
      have hc : ¬ ('.' = c) := ht.1
      simp only [List.cons_append]
      rw [replaceAllF]
      rw [if_neg (by
        intro hcontra
        have hpre := hcontra.2
        rw [sYaml_eq] at hpre
        simp [hasPrefixL] at hpre
        exact hc hpre.1)]
      congr 1
      apply ih t' ht.2
      simp only [List.length_append, List.length_cons] at hlen ⊢
      omega

theorem replaceAll_yaml_suffix (t : Str) (ht : '.' ∉ t) :
    replaceAll sYaml [] (t ++ sYaml) = t := by
  unfold replaceAll
  exact replaceAllF_yaml_suffix _ t ht (Nat.le_refl _)

/-- Core inverse lemma: parsing any storage path of the shape
`A / {pre}_{token}.yaml`, where `pre` contains no separator or underscore
and the token encodes node `n`, recovers exactly `n`. -/
theorem parse_entry_ok (A pre : Str) (n : Node)
    (hps : '/' ∉ pre) (hpu : '_' ∉ pre) :
    StorageNamespace.parse_node_from_path
      (A ++ '/' :: (pre ++ '_' :: (Node.compress_base58 n ++ sYaml))) =
      Except.ok n := by
  have htok_dot : '.' ∉ Node.compress_base58 n := fun h =>
    (compress_base58_safe n _ h).2.1 rfl
  have htok_und : '_' ∉ Node.compress_base58 n := fun h =>
    (compress_base58_safe n _ h).1 rfl
  have htok_slash : '/' ∉ Node.compress_base58 n := fun h =>
    (compress_base58_safe n _ h).2.2 rfl
  have hBslash : '/' ∉ pre ++ '_' :: (Node.compress_base58 n ++ sYaml) := by
    intro h
    rcases List.mem_append.1 h with h | h
    · exact hps h
    · rcases List.mem_cons.1 h with h | h
      · exact absurd h (by decide)
      · rcases List.mem_append.1 h with h | h
        · exact htok_slash h
        · rw [sYaml_eq] at h
          simp at h
  have hBne : pre ++ '_' :: (Node.compress_base58 n ++ sYaml) ≠ [] := by
    simp
  have hsplit : splitOnChar '_' (pre ++ '_' :: (Node.compress_base58 n ++ sYaml)) =
      [pre, Node.compress_base58 n ++ sYaml] := by
    rw [splitOnChar_append_sep _ _ _ hpu]
    rw [splitOnChar_of_not_mem]
    intro h
    rcases List.mem_append.1 h with h | h
    · exact htok_und h
    · rw [sYaml_eq] at h
      simp at h
  unfold StorageNamespace.parse_node_from_path
  rw [fileName_append_last _ _ hBslash hBne]
  show (match splitOnChar '_' (pre ++ '_' :: (Node.compress_base58 n ++ sYaml)) with
        | [_, compressed_id] =>
          match Node.decompress_base58 (replaceAll sYaml [] compressed_id) with
          | some node => Except.ok node
          | none => Except.error msgDecompress
        | _ => Except.error msgTwoSplits) = Except.ok n
  rw [hsplit]
  show (match Node.decompress_base58
          (replaceAll sYaml [] (Node.compress_base58 n ++ sYaml)) with
        | some node => Except.ok node
        | none => Except.error msgDecompress) = Except.ok n
  rw [replaceAll_yaml_suffix _ htok_dot, decompress_compress]

/-! ## Concrete values used by the claim theorems -/

def exCluster : Str := "abc123".toList

def kindNonAnchor : Str := "non-anchor".toList

def exMachineId : Str := "i-1".toList

def exNodeId : Str := "NodeID-7Xhw2mDxuDS44j42TCB6U5579esbSt3Lg".toList

def exIp : Str := "1.2.3.4".toList

def exHttpEp : Str := "http://1.2.3.4:9650".toList

/-- The concrete identity of the claim: cluster "abc123", machine "i-1". -/
def exNode : Node := ⟨kindNonAnchor, exMachineId, exNodeId, exIp, exHttpEp⟩

/-- A machine id containing an underscore: "i_1". -/
def exMachineIdU : Str := "i_1".toList

def exNodeU : Node := ⟨kindNonAnchor, exMachineIdU, exNodeId, exIp, exHttpEp⟩

def exOtherMachineId : Str := "i-other".toList

theorem last_slash_decomp (m : Str) :
    '/' ∉ m ∨ ∃ m₁ m₂, m = m₁ ++ '/' :: m₂ ∧ '/' ∉ m₂ := by
  induction m with
  | nil => exact Or.inl (by simp)
  | cons c t ih =>
    rcases ih with h | ⟨m₁, m₂, rfl, hm₂⟩
    · by_cases hc : c = '/'
      · subst hc
        exact Or.inr ⟨[], t, rfl, h⟩
      · refine Or.inl ?_
        intro hh
        rcases List.mem_cons.1 hh with h1 | h1
        · exact hc h1.symm
        · exact h h1
    · exact Or.inr ⟨c :: m₁, m₂, by simp, hm₂⟩

/-- Claim C1 (amended): for every cluster id `c` and every node identity
`n` whose machine id contains no underscore, parsing the encoded
ready-non-anchor discovery path of `n` under `c` returns `n`:
`parse_node_from_path (DiscoverReadyNonAnchorNode c n).encode = ok n`.
(The underscore restriction is forced: the parser splits the file name on
`_`, so a machine id such as "i_1" yields three pieces and an error — see
the counterexample theorem.) -/
theorem c1_parse_ready_non_anchor_roundtrip (c : Str) (n : Node)
    (hm : '_' ∉ n.machine_id) :
    StorageNamespace.parse_node_from_path
      ((StorageNamespace.DiscoverReadyNonAnchorNode c n).encode) =
      Except.ok n := by
  show StorageNamespace.parse_node_from_path
      (c ++ dirReadyNonAnchor ++ '/' :: nodeFileEntry n) = Except.ok n
  rcases last_slash_decomp n.machine_id with hns | ⟨m₁, m₂, hm_eq, hm₂⟩
  · have heq : c ++ dirReadyNonAnchor ++ '/' :: nodeFileEntry n =
        (c ++ dirReadyNonAnchor) ++
          '/' :: (n.machine_id ++ '_' :: (Node.compress_base58 n ++ sYaml)) := by
      simp [nodeFileEntry, List.append_assoc]
    rw [heq]
    exact parse_entry_ok _ _ n hns hm
  · have hm₂u : '_' ∉ m₂ := by
      intro h
      exact hm (hm_eq ▸ List.mem_append.2 (Or.inr (List.mem_cons_of_mem _ h)))
    have heq : c ++ dirReadyNonAnchor ++ '/' :: nodeFileEntry n =
        ((c ++ dirReadyNonAnchor) ++ '/' :: m₁) ++
          '/' :: (m₂ ++ '_' :: (Node.compress_base58 n ++ sYaml)) := by
      simp [nodeFileEntry, hm_eq, List.append_assoc]
    rw [heq]
    exact parse_entry_ok _ _ n hm₂ hm₂u

/-- Witness for the amended theorem of C1 at the concrete identity of the
claim: cluster id "abc123" and machine id "i-1". -/
theorem c1_witness :
    ('_' ∉ exNode.machine_id) ∧
    StorageNamespace.parse_node_from_path
      ((StorageNamespace.DiscoverReadyNonAnchorNode exCluster exNode).encode) =
      Except.ok exNode :=
  ⟨by decide, c1_parse_ready_non_anchor_roundtrip exCluster exNode (by decide)⟩

/-- Counterexample to C1 as stated ("any machine id"): for the machine id
"i_1" — underscore included — the encoded ready-non-anchor path does not
parse back to the identity; the file name splits into three pieces and
`parse_node_from_path` returns an error. -/
theorem c1_counterexample :
    StorageNamespace.parse_node_from_path
      ((StorageNamespace.DiscoverReadyNonAnchorNode exCluster exNodeU).encode) ≠
      Except.ok exNodeU := by
  intro h
  rw [show StorageNamespace.parse_node_from_path
      ((StorageNamespace.DiscoverReadyNonAnchorNode exCluster exNodeU).encode) =
      Except.error msgTwoSplits from rfl] at h
  exact Except.noConfusion h

/-- Claim C2: the anchor provisioning discovery paths are NOT distinct
from the non-anchor ones — `StorageNamespace::encode` renders both
`DiscoverProvisioningAnchorNodesDir` and
`DiscoverProvisioningNonAnchorNodesDir` (and the corresponding per-node
entries) into the same `…/discover/provisioning-non-anchor-nodes…` path.
Evaluated here at cluster id "abc123" and the concrete example node,
refuting the claimed pairwise distinctness. -/
theorem c2_provisioning_paths_collide :
    (StorageNamespace.DiscoverProvisioningAnchorNodesDir exCluster).encode =
      (StorageNamespace.DiscoverProvisioningNonAnchorNodesDir exCluster).encode ∧
    (StorageNamespace.DiscoverProvisioningAnchorNode exCluster exNode).encode =
      (StorageNamespace.DiscoverProvisioningNonAnchorNode exCluster exNode).encode :=
  ⟨rfl, rfl⟩

/-- Claim C10: `parse_node_from_path` derives the returned identity solely
from the token after the underscore; a well-formed ready-non-anchor entry
whose machine-id prefix `pre` disagrees with the machine id inside the
token still parses successfully to the identity carried by the token. -/
theorem c10_parse_ignores_machine_prefix (c pre : Str) (n : Node)
    (h1 : '_' ∉ pre) (h2 : '/' ∉ pre) (_h3 : pre ≠ n.machine_id) :
    StorageNamespace.parse_node_from_path
      (c ++ dirReadyNonAnchor ++
        '/' :: (pre ++ '_' :: (Node.compress_base58 n ++ sYaml))) =
      Except.ok n := by
  have heq : c ++ dirReadyNonAnchor ++
      '/' :: (pre ++ '_' :: (Node.compress_base58 n ++ sYaml)) =
      (c ++ dirReadyNonAnchor) ++
        '/' :: (pre ++ '_' :: (Node.compress_base58 n ++ sYaml)) := by
    simp [List.append_assoc]
  rw [heq]
  exact parse_entry_ok _ _ n h2 h1

/-- Witness for C10 at machine-id prefix "i-other" against the token of
the "i-1" identity. -/
theorem c10_witness :
    ('_' ∉ exOtherMachineId) ∧ ('/' ∉ exOtherMachineId) ∧
    exOtherMachineId ≠ exNode.machine_id ∧
    StorageNamespace.parse_node_from_path
      (exCluster ++ dirReadyNonAnchor ++
        '/' :: (exOtherMachineId ++ '_' :: (Node.compress_base58 exNode ++ sYaml))) =
      Except.ok exNode :=
  ⟨by decide, by decide, by decide,
    c10_parse_ignores_machine_prefix exCluster exOtherMachineId exNode
      (by decide) (by decide) (by decide)⟩

/-! ## The cluster specification (src/lib.rs, `Spec`) -/

/-- The io error kinds the sources construct. -/
inductive ErrKind where
  | invalidInput
  | notFound
  | other
deriving DecidableEq

/-- Outcome of a fallible source function: success, a typed io error, or a
Rust panic (a failing `expect`/`unwrap` or an out-of-bounds index). -/
inductive VResult where
  | ok
  | err (k : ErrKind) (msg : Str)
  | panicked (msg : Str)
deriving DecidableEq

def VResult.isInvalidInput : VResult → Bool
  | .err .invalidInput _ => true
  | _ => false

def VResult.isPanicked : VResult → Bool
  | .panicked _ => true
  | _ => false

/-- src/lib.rs line 39. -/
def MIN_MACHINE_ANCHOR_NODES : Nat := 1

/-- src/lib.rs line 40. -/
def MAX_MACHINE_ANCHOR_NODES : Nat := 10

/-- src/lib.rs line 38. -/
def DEFAULT_MACHINE_ANCHOR_NODES : Nat := 2

/-- src/lib.rs line 43. -/
def DEFAULT_MACHINE_NON_ANCHOR_NODES : Nat := 2

/-- src/lib.rs line 44. -/
def MIN_MACHINE_NON_ANCHOR_NODES : Nat := 1

/-- src/lib.rs line 45. -/
def MAX_MACHINE_NON_ANCHOR_NODES : Nat := 200

def mainnetName : Str := "mainnet".toList

def fujiName : Str := "fuji".toList

def lookupByName : List (Str × Nat) → Str → Option Nat
  | [], _ => none
  | (a, b) :: t, k => if a = k then some b else lookupByName t k

def lookupById : List (Nat × Str) → Nat → Option Str
  | [], _ => none
  | (a, b) :: t, k => if a = k then some b else lookupById t k

/-- Modelled from the spec (§4.3): the name-to-id table of known networks
(`constants::NETWORK_NAME_TO_NETWORK_ID`; `src/avalanche/constants.rs` is
not among the provided sources).  The table contents are representative;
all claims depend only on membership versus non-membership. -/
def NETWORK_NAME_TO_NETWORK_ID : List (Str × Nat) :=
  [(mainnetName, 1), (fujiName, 5)]

/-- Modelled from the spec (§4.3): the inverse id-to-name table
(`constants::NETWORK_ID_TO_NETWORK_NAME`). -/
def NETWORK_ID_TO_NETWORK_NAME : List (Nat × Str) :=
  [(1, mainnetName), (5, fujiName)]

/-- Modelled from the spec (§4.3): the reserved custom-network id
(`avalanchego_config::DEFAULT_CUSTOM_NETWORK_ID`), outside the known
table. -/
def DEFAULT_CUSTOM_NETWORK_ID : Nat := 1000000

/-- Modelled from the spec: the avalanchego node configuration
(`src/avalanche/avalanchego/config.rs` is not among the provided
sources); only the fields `Spec::default_aws` and `Spec::validate` touch
are carried. -/
structure AvalanchegoConfig where
  network_id : Nat
  log_level : Option Str
  genesis : Option Str
  http_tls_enabled : Option Bool
  http_tls_key_file : Option Str
  http_tls_cert_file : Option Str
  staking_tls_key_file : Option Str
  staking_tls_cert_file : Option Str
  state_sync_ids : Option Str
  state_sync_ips : Option Str
  profile_continuous_enabled : Option Bool
  profile_continuous_freq : Option Str
  profile_continuous_max_files : Option Nat
  whitelisted_subnets : Option Str
deriving DecidableEq

/-- Modelled from the spec: a network id is custom exactly when it is not
in the known-networks table. -/
def AvalanchegoConfig.is_custom_network (c : AvalanchegoConfig) : Bool :=
  (lookupById NETWORK_ID_TO_NETWORK_NAME c.network_id).isNone

def defaultGenesisPath : Str := "/etc/avalanche.genesis.json".toList

def defaultStakingKeyPath : Str := "/etc/pki/tls/certs/avalanched.pki.key".toList

def defaultStakingCertPath : Str := "/etc/pki/tls/certs/avalanched.pki.crt".toList

/-- Modelled from the spec: `avalanchego_config::Config::default()` —
custom network id with a genesis path set (cleared by `default_aws` for
known networks), staking TLS material at fixed paths. -/
def AvalanchegoConfig.default : AvalanchegoConfig :=
  { network_id := DEFAULT_CUSTOM_NETWORK_ID
    log_level := none
    genesis := some defaultGenesisPath
    http_tls_enabled := none
    http_tls_key_file := none
    http_tls_cert_file := none
    staking_tls_key_file := some defaultStakingKeyPath
    staking_tls_cert_file := some defaultStakingCertPath
    state_sync_ids := none
    state_sync_ips := none
    profile_continuous_enabled := none
    profile_continuous_freq := none
    profile_continuous_max_files := none
    whitelisted_subnets := none }

/-- Modelled from the spec: the coreth (C-chain) configuration
(`src/avalanche/coreth/config.rs` is not among the provided sources);
only the fields `default_aws` touches. -/
structure CorethConfig where
  metrics_enabled : Option Bool
  continuous_profiler_dir : Option Str
  continuous_profiler_frequency : Option Nat
  continuous_profiler_max_files : Option Nat
  offline_pruning_enabled : Option Bool
deriving DecidableEq

def CorethConfig.default : CorethConfig := ⟨none, none, none, none, none⟩

def DEFAULT_PROFILE_DIR : Str := "/var/log/avalanche-profile/coreth".toList

def DEFAULT_PROFILE_FREQUENCY : Nat := 900000000000

def DEFAULT_PROFILE_MAX_FILES : Nat := 5

/-- Modelled from the spec: generated key material
(`key::PrivateKeyInfo`; `src/avalanche/key.rs` is not among the provided
sources) — the claims depend only on its output shape, carried here as
the derived ethereum address. -/
structure PrivateKeyInfo where
  eth_address : Str
deriving DecidableEq

/-- Modelled from the spec: the avalanchego genesis template
(`src/avalanche/avalanchego/genesis.rs` is not among the provided
sources); the claims depend only on its presence and the network it was
generated for. -/
structure AvalanchegoGenesis where
  network_id : Nat
deriving DecidableEq

/-- Modelled from the spec: the subnet-evm genesis (`default_aws` seeds
its allocation table with every generated address and grants them
deployer-allow-list admin rights). -/
structure SubnetEvmGenesis where
  alloc : Option (List Str)
  allow_list_admins : Option (List Str)
deriving DecidableEq

/-- AWS resource handles (src/lib.rs `aws::Resources`; `src/aws/mod.rs`
is not among the provided sources — field set modelled from the uses in
`Spec::default_aws` and `Spec::validate`). -/
structure AwsResources where
  region : Str
  s3_bucket : Str
  db_backup_s3_region : Option Str
  db_backup_s3_bucket : Option Str
  db_backup_s3_key : Option Str
  nlb_acm_certificate_arn : Option Str
  instance_system_logs : Option Bool
  instance_system_metrics : Option Bool
deriving DecidableEq

def AwsResources.default : AwsResources :=
  ⟨[], [], none, none, none, none, none, none⟩

/-- src/lib.rs lines 172–179. -/
structure Machine where
  anchor_nodes : Option Nat
  non_anchor_nodes : Nat
  instance_types : Option (List Str)
deriving DecidableEq

/-- src/lib.rs lines 185–207. -/
structure InstallArtifacts where
  avalanched_bin : Str
  avalanchego_bin : Str
  plugins_dir : Option Str
deriving DecidableEq

/-- src/lib.rs lines 111–132. -/
structure Endpoints where
  http_rpc : Option Str
  http_rpc_x : Option Str
  http_rpc_p : Option Str
  http_rpc_c : Option Str
  metrics : Option Str
  health : Option Str
  liveness : Option Str
  metamask_rpc : Option Str
  websocket : Option Str
deriving DecidableEq

def Endpoints.default : Endpoints :=
  ⟨none, none, none, none, none, none, none, none, none⟩

/-- src/lib.rs lines 55–107 (`current_nodes` elided to a list of node
identities). -/
structure Spec where
  id : Str
  aws_resources : Option AwsResources
  machine : Machine
  install_artifacts : InstallArtifacts
  avalanchego_config : AvalanchegoConfig
  coreth_config : CorethConfig
  avalanchego_genesis_template : Option AvalanchegoGenesis
  subnet_evm_genesis : Option SubnetEvmGenesis
  generated_seed_private_key_with_locked_p_chain_balance : Option PrivateKeyInfo
  generated_seed_private_keys : Option (List PrivateKeyInfo)
  current_nodes : Option (List Node)
  endpoints : Option Endpoints
deriving DecidableEq

/-! Error messages of `Spec::validate`; the source interpolates values —
carried where a claim could observe them (the bucket name), elided to
constants otherwise. -/

def msgIdEmpty : Str := "id cannot be empty".toList

def msgIdTooLong : Str := "id length cannot be gt 28".toList

def msgRegionEmpty : Str := "machine.region cannot be empty".toList

def msgMissingBucket : Str := " missing corresponding bucket".toList

def msgMissingKey : Str := " missing corresponding key".toList

def msgMissingRegion : Str := " missing corresponding region".toList

def msgExpectBucket : Str := "unexpected aws_resources.db_backup_s3_bucket".toList

def msgNonAnchorMin : Str := "machine.non_anchor_nodes below minimum".toList

def msgNonAnchorMax : Str := "machine.non_anchor_nodes above maximum".toList

def msgAvalanchedMissing : Str := "avalanched_bin does not exist".toList

def msgAvalanchegoMissing : Str := "avalanchego_bin does not exist".toList

def msgPluginsMissing : Str := "plugins_dir does not exist".toList

def msgGenesisForKnown : Str :=
  "cannot specify avalanchego_genesis_template for known network".toList

def msgAnchorForKnown : Str :=
  "cannot specify non-zero machine.anchor_nodes for known network".toList

def msgGenesisRequired : Str :=
  "must specify avalanchego_genesis_template for custom network".toList

def msgAnchorZero : Str :=
  "cannot specify 0 for machine.anchor_nodes for custom network".toList

def msgAnchorMin : Str := "machine.anchor_nodes below min".toList

def msgAnchorMax : Str := "machine.anchor_nodes exceeds limit".toList

/-- The db-backup section of `Spec::validate` (src/lib.rs lines 550–597).
Each of the three error branches formats its message around
`db_backup_s3_bucket.expect(…)`; the first branch fires exactly when that
bucket is `None`, so the very `expect` of the source panics there instead of
returning the constructed error. -/
def checkAws (a : AwsResources) : Option VResult :=
  if a.region.isEmpty then some (.err .invalidInput msgRegionEmpty)
  else if a.db_backup_s3_region.isSome && !a.db_backup_s3_bucket.isSome then
    some (match a.db_backup_s3_bucket with
          | some b => .err .invalidInput (b ++ msgMissingBucket)
          | none => .panicked msgExpectBucket)
  else if a.db_backup_s3_bucket.isSome && !a.db_backup_s3_key.isSome then
    some (match a.db_backup_s3_bucket with
          | some b => .err .invalidInput (b ++ msgMissingKey)
          | none => .panicked msgExpectBucket)
  else if a.db_backup_s3_bucket.isSome && !a.db_backup_s3_region.isSome then
    some (match a.db_backup_s3_bucket with
          | some b => .err .invalidInput (b ++ msgMissingRegion)
          | none => .panicked msgExpectBucket)
  else none

/-- The network-dependent tail of `Spec::validate` (src/lib.rs lines
658–713). -/
def checkNetwork (s : Spec) : VResult :=
  if !s.avalanchego_config.is_custom_network then
    if s.avalanchego_genesis_template.isSome then
      .err .invalidInput msgGenesisForKnown
    else if 0 < s.machine.anchor_nodes.getD 0 then
      .err .invalidInput msgAnchorForKnown
    else .ok
  else
    if !s.avalanchego_genesis_template.isSome then
      .err .invalidInput msgGenesisRequired
    else if s.machine.anchor_nodes.getD 0 = 0 then
      .err .invalidInput msgAnchorZero
    else if s.machine.anchor_nodes.getD 0 < MIN_MACHINE_ANCHOR_NODES then
      .err .invalidInput msgAnchorMin
    else if MAX_MACHINE_ANCHOR_NODES < s.machine.anchor_nodes.getD 0 then
      .err .invalidInput msgAnchorMax
    else .ok

/-- Translated from `Spec::validate` (src/lib.rs lines 535–716), with the
ambient filesystem passed explicitly as `fs` (the `Path::exists` calls of
the source).  Check order follows the source: id, aws resources, non-anchor
range, artifact paths, network-dependent checks. -/
def Spec.validate (fs : Str → Bool) (s : Spec) : VResult :=
  if s.id.isEmpty then .err .invalidInput msgIdEmpty
  else if 28 < s.id.length then .err .invalidInput msgIdTooLong
  else
    match (match s.aws_resources with
           | none => none
           | some a => checkAws a) with
    | some r => r
    | none =>
      if s.machine.non_anchor_nodes < MIN_MACHINE_NON_ANCHOR_NODES then
        .err .invalidInput msgNonAnchorMin
      else if MAX_MACHINE_NON_ANCHOR_NODES < s.machine.non_anchor_nodes then
        .err .invalidInput msgNonAnchorMax
      else if !fs s.install_artifacts.avalanched_bin then
        .err .invalidInput msgAvalanchedMissing
      else if !fs s.install_artifacts.avalanchego_bin then
        .err .invalidInput msgAvalanchegoMissing
      else if s.install_artifacts.plugins_dir.isSome &&
          !(match s.install_artifacts.plugins_dir with
            | some d => fs d
            | none => false) then
        .err .invalidInput msgPluginsMissing
      else checkNetwork s

/-! Side conditions under which the individual sections of `validate`
pass, used as the "other invariants hold" hypotheses of the validation
claims; each transcribes the corresponding conditions of the source. -/

def idChecksOk (s : Spec) : Bool :=
  !s.id.isEmpty && decide (s.id.length ≤ 28)

def awsChecksOk (s : Spec) : Bool :=
  match s.aws_resources with
  | none => true
  | some a =>
    !a.region.isEmpty &&
    !(a.db_backup_s3_region.isSome && !a.db_backup_s3_bucket.isSome) &&
    !(a.db_backup_s3_bucket.isSome && !a.db_backup_s3_key.isSome) &&
    !(a.db_backup_s3_bucket.isSome && !a.db_backup_s3_region.isSome)

def nonAnchorRangeOk (s : Spec) : Bool :=
  decide (MIN_MACHINE_NON_ANCHOR_NODES ≤ s.machine.non_anchor_nodes) &&
  decide (s.machine.non_anchor_nodes ≤ MAX_MACHINE_NON_ANCHOR_NODES)

def artifactsOk (fs : Str → Bool) (s : Spec) : Bool :=
  fs s.install_artifacts.avalanched_bin &&
  fs s.install_artifacts.avalanchego_bin &&
  (match s.install_artifacts.plugins_dir with
   | none => true
   | some d => fs d)

def networkChecksOk (s : Spec) : Bool :=
  if s.avalanchego_config.is_custom_network then
    s.avalanchego_genesis_template.isSome &&
    decide (MIN_MACHINE_ANCHOR_NODES ≤ s.machine.anchor_nodes.getD 0) &&
    decide (s.machine.anchor_nodes.getD 0 ≤ MAX_MACHINE_ANCHOR_NODES)
  else
    !s.avalanchego_genesis_template.isSome &&
    decide (s.machine.anchor_nodes.getD 0 = 0)

theorem checkAws_none_of_ok (s : Spec) (h : awsChecksOk s = true) :
    (match s.aws_resources with
     | none => none
     | some a => checkAws a) = none := by
  unfold awsChecksOk at h
  cases haws : s.aws_resources with
  | none => rfl
  | some a =>
    rw [haws] at h
    simp only [Bool.and_eq_true, Bool.not_eq_true'] at h
    obtain ⟨⟨⟨h1, h2⟩, h3⟩, h4⟩ := h
    simp only [checkAws, h1, h2, h3, h4]
    rfl

theorem validate_eq_checkNetwork (fs : Str → Bool) (s : Spec)
    (h1 : idChecksOk s = true) (h2 : awsChecksOk s = true)
    (h3 : nonAnchorRangeOk s = true) (h4 : artifactsOk fs s = true) :
    Spec.validate fs s = checkNetwork s := by
  simp only [idChecksOk, Bool.and_eq_true, Bool.not_eq_true',
    decide_eq_true_eq] at h1
  simp only [nonAnchorRangeOk, Bool.and_eq_true, decide_eq_true_eq] at h3
  simp only [artifactsOk, Bool.and_eq_true] at h4
  unfold Spec.validate
  rw [checkAws_none_of_ok s h2]
  simp only [h1.1, Bool.false_eq_true, if_false]
  rw [if_neg (by omega), if_neg (by omega), if_neg (by omega)]
  rw [if_neg (by simp [h4.1.1]), if_neg (by simp [h4.1.2])]
  rw [if_neg (by
    rcases hp : s.install_artifacts.plugins_dir with _ | d
    · simp [hp]
    · have h42 := h4.2
      rw [hp] at h42
      have h42' : fs d = true := h42
      simp [hp, h42'])]

theorem validate_nonanchor_low (fs : Str → Bool) (s : Spec)
    (h1 : idChecksOk s = true) (h2 : awsChecksOk s = true)
    (hlow : s.machine.non_anchor_nodes < MIN_MACHINE_NON_ANCHOR_NODES) :
    Spec.validate fs s = VResult.err .invalidInput msgNonAnchorMin := by
  simp only [idChecksOk, Bool.and_eq_true, Bool.not_eq_true',
    decide_eq_true_eq] at h1
  unfold Spec.validate
  rw [checkAws_none_of_ok s h2]
  simp only [h1.1, Bool.false_eq_true, if_false]
  rw [if_neg (by omega), if_pos hlow]

theorem validate_nonanchor_high (fs : Str → Bool) (s : Spec)
    (h1 : idChecksOk s = true) (h2 : awsChecksOk s = true)
    (hmin : MIN_MACHINE_NON_ANCHOR_NODES ≤ s.machine.non_anchor_nodes)
    (hhigh : MAX_MACHINE_NON_ANCHOR_NODES < s.machine.non_anchor_nodes) :
    Spec.validate fs s = VResult.err .invalidInput msgNonAnchorMax := by
  simp only [idChecksOk, Bool.and_eq_true, Bool.not_eq_true',
    decide_eq_true_eq] at h1
  unfold Spec.validate
  rw [checkAws_none_of_ok s h2]
  simp only [h1.1, Bool.false_eq_true, if_false]
  rw [if_neg (by omega), if_neg (by omega), if_pos hhigh]

theorem checkNetwork_ok (s : Spec) (h : networkChecksOk s = true) :
    checkNetwork s = VResult.ok := by
  unfold networkChecksOk at h
  unfold checkNetwork
  cases hcust : s.avalanchego_config.is_custom_network with
  | false =>
    rw [hcust] at h
    simp only [Bool.false_eq_true, if_false, Bool.and_eq_true,
      Bool.not_eq_true', decide_eq_true_eq] at h
    simp only [hcust, Bool.not_false, if_true]
    rw [if_neg (by simp [h.1]), if_neg (by omega)]
  | true =>
    rw [hcust] at h
    simp only [if_true, Bool.and_eq_true, decide_eq_true_eq] at h
    obtain ⟨⟨hg, hmin⟩, hmax⟩ := h
    simp only [hcust, Bool.not_true, Bool.false_eq_true, if_false]
    rw [if_neg (by simp [hg]), if_neg (by
        simp only [MIN_MACHINE_ANCHOR_NODES] at hmin
        omega),
      if_neg (by omega), if_neg (by omega)]

theorem validate_ok_of (fs : Str → Bool) (s : Spec)
    (h1 : idChecksOk s = true) (h2 : awsChecksOk s = true)
    (h3 : nonAnchorRangeOk s = true) (h4 : artifactsOk fs s = true)
    (h5 : networkChecksOk s = true) :
    Spec.validate fs s = VResult.ok := by
  rw [validate_eq_checkNetwork fs s h1 h2 h3 h4]
  exact checkNetwork_ok s h5

/-- Replaces only the non-anchor machine count of a spec. -/
def withNonAnchor (s : Spec) (k : Nat) : Spec :=
  { s with machine := { s.machine with non_anchor_nodes := k } }

/-- Claim C3: for every spec whose other validation invariants hold,
`Spec::validate` returns an `InvalidInput` error at non-anchor count 0,
returns an `InvalidInput` error at 201, and returns Ok at 200. -/
theorem c3_validate_non_anchor_bounds (fs : Str → Bool) (s : Spec)
    (h1 : idChecksOk s = true) (h2 : awsChecksOk s = true)
    (h4 : artifactsOk fs s = true) (h5 : networkChecksOk s = true) :
    VResult.isInvalidInput (Spec.validate fs (withNonAnchor s 0)) = true ∧
    VResult.isInvalidInput (Spec.validate fs (withNonAnchor s 201)) = true ∧
    Spec.validate fs (withNonAnchor s 200) = VResult.ok := by
  have h1a : ∀ k, idChecksOk (withNonAnchor s k) = true := fun _ => h1
  have h2a : ∀ k, awsChecksOk (withNonAnchor s k) = true := fun _ => h2
  have h4a : ∀ k, artifactsOk fs (withNonAnchor s k) = true := fun _ => h4
  have h5a : ∀ k, networkChecksOk (withNonAnchor s k) = true := fun _ => h5
  refine ⟨?_, ?_, ?_⟩
  · rw [validate_nonanchor_low fs (withNonAnchor s 0) (h1a 0) (h2a 0)
      (by decide : (0 : Nat) < MIN_MACHINE_NON_ANCHOR_NODES)]
    rfl
  · rw [validate_nonanchor_high fs (withNonAnchor s 201) (h1a 201) (h2a 201)
      (by decide : MIN_MACHINE_NON_ANCHOR_NODES ≤ 201)
      (by decide : MAX_MACHINE_NON_ANCHOR_NODES < 201)]
    rfl
  · exact validate_ok_of fs (withNonAnchor s 200) (h1a 200) (h2a 200)
      rfl (h4a 200) (h5a 200)

/-- Claim C4: for every spec whose earlier validation sections pass,
`Spec::validate` enforces the network-dependent invariant: a known network
id rejects a present genesis template and a non-zero anchor count with
`InvalidInput`; a custom network id rejects an absent template, anchor
count 0 (also when the field is absent) and anchor count 11 with
`InvalidInput`, and accepts anchor count 10. -/
theorem c4_validate_network_invariants (fs : Str → Bool) (s : Spec)
    (h1 : idChecksOk s = true) (h2 : awsChecksOk s = true)
    (h3 : nonAnchorRangeOk s = true) (h4 : artifactsOk fs s = true) :
    ((s.avalanchego_config.is_custom_network = false ∧
        s.avalanchego_genesis_template.isSome = true) →
      VResult.isInvalidInput (Spec.validate fs s) = true) ∧
    ((s.avalanchego_config.is_custom_network = false ∧
        0 < s.machine.anchor_nodes.getD 0) →
      VResult.isInvalidInput (Spec.validate fs s) = true) ∧
    ((s.avalanchego_config.is_custom_network = true ∧
        s.avalanchego_genesis_template = none) →
      VResult.isInvalidInput (Spec.validate fs s) = true) ∧
    ((s.avalanchego_config.is_custom_network = true ∧
        s.machine.anchor_nodes.getD 0 = 0) →
      VResult.isInvalidInput (Spec.validate fs s) = true) ∧
    ((s.avalanchego_config.is_custom_network = true ∧
        s.machine.anchor_nodes.getD 0 = 11) →
      VResult.isInvalidInput (Spec.validate fs s) = true) ∧
    ((s.avalanchego_config.is_custom_network = true ∧
        s.avalanchego_genesis_template.isSome = true ∧
        s.machine.anchor_nodes.getD 0 = 10) →
      Spec.validate fs s = VResult.ok) := by
  have hred : Spec.validate fs s = checkNetwork s :=
    validate_eq_checkNetwork fs s h1 h2 h3 h4
  rw [hred]
  refine ⟨?_, ?_, ?_, ?_, ?_, ?_⟩
  · rintro ⟨hc, hx⟩
    simp [checkNetwork, VResult.isInvalidInput, hc, hx]
  · rintro ⟨hc, hx⟩
    cases hg : s.avalanchego_genesis_template.isSome with
    | true => simp [checkNetwork, VResult.isInvalidInput, hc, hg]
    | false => simp [checkNetwork, VResult.isInvalidInput, hc, hg, hx]
  · rintro ⟨hc, hx⟩
    simp [checkNetwork, VResult.isInvalidInput, hc, hx]
  · rintro ⟨hc, hx⟩
    cases hg : s.avalanchego_genesis_template.isSome with
    | true => simp [checkNetwork, VResult.isInvalidInput, hc, hg, hx]
    | false => simp [checkNetwork, VResult.isInvalidInput, hc, hg]
  · rintro ⟨hc, hx⟩
    cases hg : s.avalanchego_genesis_template.isSome with
    | true =>
      simp [checkNetwork, VResult.isInvalidInput, hc, hg, hx,
        MIN_MACHINE_ANCHOR_NODES, MAX_MACHINE_ANCHOR_NODES]
    | false => simp [checkNetwork, VResult.isInvalidInput, hc, hg]
  · rintro ⟨hc, hg, ha⟩
    simp [checkNetwork, hc, hg, ha,
      MIN_MACHINE_ANCHOR_NODES, MAX_MACHINE_ANCHOR_NODES]

/-! Concrete specs for the validation witnesses and the db-backup
evaluation. -/

def fsTrue : Str → Bool := fun _ => true

def exIdStr : Str := "mytest".toList

def exAvalanchedPath : Str := "/tmp/avalanched".toList

def exAvalanchegoPath : Str := "/tmp/avalanchego".toList

def exArtifacts : InstallArtifacts := ⟨exAvalanchedPath, exAvalanchegoPath, none⟩

/-- A known-network (mainnet, id 1) node configuration. -/
def exKnownConfig : AvalanchegoConfig :=
  { AvalanchegoConfig.default with network_id := 1, genesis := none }

def exGenesisTmpl : AvalanchegoGenesis := ⟨DEFAULT_CUSTOM_NETWORK_ID⟩

/-- A valid known-network spec: id "mytest", no aws resources, no anchor
nodes, 2 non-anchor nodes, no genesis template. -/
def baseSpecKnown : Spec :=
  { id := exIdStr
    aws_resources := none
    machine := ⟨none, 2, none⟩
    install_artifacts := exArtifacts
    avalanchego_config := exKnownConfig
    coreth_config := CorethConfig.default
    avalanchego_genesis_template := none
    subnet_evm_genesis := none
    generated_seed_private_key_with_locked_p_chain_balance := none
    generated_seed_private_keys := none
    current_nodes := none
    endpoints := none }

/-- A valid custom-network spec with 10 anchor nodes and a genesis
template present. -/
def baseSpecCustom10 : Spec :=
  { baseSpecKnown with
    avalanchego_config := AvalanchegoConfig.default
    machine := ⟨some 10, 2, none⟩
    avalanchego_genesis_template := some exGenesisTmpl }

/-- Witness for C3 at the concrete known-network spec. -/
theorem c3_witness :
    idChecksOk baseSpecKnown = true ∧
    VResult.isInvalidInput (Spec.validate fsTrue (withNonAnchor baseSpecKnown 0)) = true ∧
    VResult.isInvalidInput (Spec.validate fsTrue (withNonAnchor baseSpecKnown 201)) = true ∧
    Spec.validate fsTrue (withNonAnchor baseSpecKnown 200) = VResult.ok :=
  ⟨by decide,
   (c3_validate_non_anchor_bounds fsTrue baseSpecKnown
     (by decide) (by decide) (by decide) (by decide)).1,
   (c3_validate_non_anchor_bounds fsTrue baseSpecKnown
     (by decide) (by decide) (by decide) (by decide)).2.1,
   (c3_validate_non_anchor_bounds fsTrue baseSpecKnown
     (by decide) (by decide) (by decide) (by decide)).2.2⟩

/-- Witness for C4 at the concrete custom-network spec with anchor count
10: validation accepts. -/
theorem c4_witness :
    baseSpecCustom10.avalanchego_config.is_custom_network = true ∧
    Spec.validate fsTrue baseSpecCustom10 = VResult.ok :=
  ⟨by decide,
   (c4_validate_network_invariants fsTrue baseSpecCustom10
       (by decide) (by decide) (by decide) (by decide)).2.2.2.2.2
     ⟨by decide, by decide, by decide⟩⟩

def exRegionStr : Str := "us-west-2".toList

def exBucketStr : Str := "test-bucket".toList

def exAwsBase : AwsResources :=
  { region := exRegionStr
    s3_bucket := exBucketStr
    db_backup_s3_region := none
    db_backup_s3_bucket := none
    db_backup_s3_key := none
    nlb_acm_certificate_arn := none
    instance_system_logs := none
    instance_system_metrics := none }

/-- Spec with only `db_backup_s3_region` set. -/
def specDbRegionOnly : Spec :=
  { baseSpecKnown with
    aws_resources := some { exAwsBase with db_backup_s3_region := some exRegionStr } }

/-- Spec with only `db_backup_s3_key` set. -/
def specDbKeyOnly : Spec :=
  { baseSpecKnown with
    aws_resources := some { exAwsBase with db_backup_s3_key := some exBucketStr } }

/-- Spec with only `db_backup_s3_bucket` set. -/
def specDbBucketOnly : Spec :=
  { baseSpecKnown with
    aws_resources := some { exAwsBase with db_backup_s3_bucket := some exBucketStr } }

/-- Claim C5, evaluated: the all-or-none db-backup invariant is not
enforced as claimed.  With only the region present, `validate` panics on
the `expect` the source itself wrote of the `None` bucket while formatting the error
(instead of returning `InvalidInput`); with only the key present,
`validate` accepts the spec outright; with only the bucket present it
does return `InvalidInput` naming the bucket. -/
theorem c5_db_backup_subsets :
    Spec.validate fsTrue specDbRegionOnly = VResult.panicked msgExpectBucket ∧
    Spec.validate fsTrue specDbKeyOnly = VResult.ok ∧
    Spec.validate fsTrue specDbBucketOnly =
      VResult.err ErrKind.invalidInput (exBucketStr ++ msgMissingKey) :=
  ⟨rfl, rfl, rfl⟩

/-! ## Specification derivation (src/lib.rs, `Spec::default_aws`) -/

/-- src/lib.rs lines 230–266 (`DefaultSpecOption`). -/
structure DefaultSpecOption where
  log_level : Str
  network_name : Str
  keys_to_generate : Nat
  region : Str
  db_backup_s3_region : Str
  db_backup_s3_bucket : Str
  db_backup_s3_key : Str
  nlb_acm_certificate_arn : Str
  install_artifacts_avalanched_bin : Str
  install_artifacts_avalanche_bin : Str
  install_artifacts_plugins_dir : Str
  avalanchego_log_level : Str
  avalanchego_whitelisted_subnets : Str
  avalanchego_http_tls_enabled : Bool
  avalanchego_state_sync_ids : Str
  avalanchego_state_sync_ips : Str
  avalanchego_profile_continuous_enabled : Bool
  avalanchego_profile_continuous_freq : Str
  avalanchego_profile_continuous_max_files : Str
  coreth_metrics_enabled : Bool
  coreth_continuous_profiler_enabled : Bool
  coreth_offline_pruning_enabled : Bool
  enable_subnet_evm : Bool
  disable_instance_system_logs : Bool
  disable_instance_system_metrics : Bool
  spec_file_path : Str
deriving DecidableEq

/-- The ambient effects `default_aws` consumes, passed explicitly: fresh
key generation beyond the test keys, the time-based id generator
(`id::with_time`), the date stamp (`time::get(6)`) and the host-derived
id (`id::system(10)`) used in the bucket name. -/
structure Env where
  genKey : Nat → PrivateKeyInfo
  timeId : Str → Str
  time6 : Str
  sysId10 : Str

def testAddr0 : Str := "0x613040a239BDfCF110969fecB41c6f92EA3515C0".toList

def testAddr1 : Str := "0x0Ee05081763f1113dA9A295C7C2d09a6E39E1513".toList

/-- Modelled from the spec (§4.3): the well-known pre-funded test keys
(`key::TEST_KEYS`), reused before fresh keys are generated.  The entries
are representative; the claims depend only on the reuse-then-generate
policy and the number of keys produced. -/
def TEST_KEYS : List PrivateKeyInfo := [⟨testAddr0⟩, ⟨testAddr1⟩]

/-- The i-th seed key: a test key while they last, a freshly generated
key beyond (src/lib.rs lines 358–369 and, for custom networks, inside
`Genesis::new`). -/
def seedKeyAt (env : Env) (i : Nat) : PrivateKeyInfo :=
  if h : i < TEST_KEYS.length then TEST_KEYS.get ⟨i, h⟩ else env.genKey i

def genSeedKeys (env : Env) (k : Nat) : List PrivateKeyInfo :=
  (List.range k).map (seedKeyAt env)

/-- Modelled from the spec (§4.3):
`avalanchego_genesis::Genesis::new(network_id, keys)` generates exactly
the requested number of seed keys (test keys first, fresh ones beyond)
and a genesis template for the custom network
(`src/avalanche/avalanchego/genesis.rs` is not among the provided
sources). -/
def avalanchegoGenesisNew (env : Env) (network_id k : Nat) :
    AvalanchegoGenesis × List PrivateKeyInfo :=
  (⟨network_id⟩, genSeedKeys env k)

/-- Embeds Rust `str::parse::<u32>()` as the sources use it: digits only,
non-empty, value within the u32 range. -/
def parseU32 (s : Str) : Option Nat :=
  if s ≠ [] ∧ s.all Char.isDigit then
    let v := s.foldl (fun acc c => acc * 10 + (c.toNat - 48)) 0
    if v < 4294967296 then some v else none
  else none

/-- Embeds Rust `Path::file_stem`: the file name with the extension after
its final dot removed (the whole name when there is no dot, or when only
a leading dot precedes it). -/
def fileStem (p : Str) : Option Str :=
  match fileName p with
  | none => none
  | some f =>
    match f.reverse.dropWhile (fun c => c ≠ '.') with
    | [] => some f
    | _ :: stemRev => if stemRev.isEmpty then some f else some stemRev.reverse

def msgParseU32 : Str :=
  "failed to parse avalanchego_profile_continuous_max_files as u32".toList

def msgFileStemNone : Str := "unexpected None file_stem".toList

def msgIndexOutOfBounds : Str :=
  "index out of bounds: generated_seed_keys is empty".toList

/-- src/lib.rs lines 274–278: resolve the network name, falling back to
the reserved custom id. -/
def resolveNetworkId (name : Str) : Nat :=
  match lookupByName NETWORK_NAME_TO_NETWORK_ID name with
  | some v => v
  | none => DEFAULT_CUSTOM_NETWORK_ID

/-- A network id is custom exactly when absent from the known table; this
is `is_custom_network` expressed on the id (the config is never given a
different id after construction). -/
def isCustomId (network_id : Nat) : Bool :=
  (lookupById NETWORK_ID_TO_NETWORK_NAME network_id).isNone

/-- The avalanchego-config block of `Spec::default_aws` (src/lib.rs lines
280–317).  `.error` is the panic of `parse::<u32>().unwrap()` on a
malformed `profile_continuous_max_files`. -/
def buildAvagoConfig (opt : DefaultSpecOption) : Except Str AvalanchegoConfig :=
  let cfg := { AvalanchegoConfig.default with
               network_id := resolveNetworkId opt.network_name
               log_level := some opt.avalanchego_log_level }
  let cfg := if cfg.is_custom_network then cfg else { cfg with genesis := none }
  let cfg := if opt.avalanchego_http_tls_enabled then
      { cfg with http_tls_enabled := some true
                 http_tls_key_file := cfg.staking_tls_key_file
                 http_tls_cert_file := cfg.staking_tls_cert_file }
    else cfg
  let cfg := if !opt.avalanchego_state_sync_ids.isEmpty then
      { cfg with state_sync_ids := some opt.avalanchego_state_sync_ids }
    else cfg
  let cfg := if !opt.avalanchego_state_sync_ips.isEmpty then
      { cfg with state_sync_ips := some opt.avalanchego_state_sync_ips }
    else cfg
  let cfg := if opt.avalanchego_profile_continuous_enabled then
      { cfg with profile_continuous_enabled := some true }
    else cfg
  let cfg := if !opt.avalanchego_profile_continuous_freq.isEmpty then
      { cfg with profile_continuous_freq := some opt.avalanchego_profile_continuous_freq }
    else cfg
  let withWl := fun (c : AvalanchegoConfig) =>
    if !opt.avalanchego_whitelisted_subnets.isEmpty then
      { c with whitelisted_subnets := some opt.avalanchego_whitelisted_subnets }
    else c
  if opt.avalanchego_profile_continuous_max_files.isEmpty then
    .ok (withWl cfg)
  else
    match parseU32 opt.avalanchego_profile_continuous_max_files with
    | none => .error msgParseU32
    | some v => .ok (withWl { cfg with profile_continuous_max_files := some v })

def aopsDash : Str := "aops-".toList

def aopsCustomName : Str := "aops-custom".toList

/-- The cluster-id block of `Spec::default_aws` (src/lib.rs lines
320–330).  `.error` is the panic of `file_stem().unwrap()` on a path
without a stem. -/
def specIdOf (env : Env) (opt : DefaultSpecOption) (network_id : Nat) :
    Except Str Str :=
  if !opt.spec_file_path.isEmpty then
    match fileStem opt.spec_file_path with
    | some stem => .ok stem
    | none => .error msgFileStemNone
  else
    match lookupById NETWORK_ID_TO_NETWORK_NAME network_id with
    | some v => .ok (env.timeId (aopsDash ++ v))
    | none => .ok (env.timeId aopsCustomName)

def iType1 : Str := "c6a.large".toList

def iType2 : Str := "m6a.large".toList

def iType3 : Str := "m5.large".toList

def iType4 : Str := "c5.large".toList

def defaultInstanceTypes : List Str := [iType1, iType2, iType3, iType4]

/-- The machine block of `Spec::default_aws` (src/lib.rs lines 331–348):
no anchor nodes for known networks, the default anchor count for custom
networks. -/
def machineFor (network_id : Nat) : Machine :=
  match lookupById NETWORK_ID_TO_NETWORK_NAME network_id with
  | some _ => ⟨none, DEFAULT_MACHINE_NON_ANCHOR_NODES, some defaultInstanceTypes⟩
  | none => ⟨some DEFAULT_MACHINE_ANCHOR_NODES, DEFAULT_MACHINE_NON_ANCHOR_NODES,
             some defaultInstanceTypes⟩

/-- The genesis/keys block of `Spec::default_aws` (src/lib.rs lines
350–372): a generated genesis with its keys for custom networks, keys
only for known networks. -/
def genesisAndKeys (env : Env) (custom : Bool) (network_id k : Nat) :
    Option AvalanchegoGenesis × List PrivateKeyInfo :=
  if custom then
    let gk := avalanchegoGenesisNew env network_id k
    (some gk.1, gk.2)
  else
    (none, genSeedKeys env k)

/-- Embeds `prefix::strip_0x`. -/
def strip0x (s : Str) : Str :=
  match s with
  | '0' :: 'x' :: rest => rest
  | _ => s

/-- The subnet-evm block of `Spec::default_aws` (src/lib.rs lines
377–403): allocation entries keyed by every generated address (0x
stripped) and deployer-allow-list admin rights for all of them (the
per-account allocation payloads are defaults and elided). -/
def subnetEvmFor (opt : DefaultSpecOption) (seedKeys : List PrivateKeyInfo) :
    Option SubnetEvmGenesis :=
  if opt.enable_subnet_evm then
    some ⟨some (seedKeys.map (fun k => strip0x k.eth_address)),
          some (seedKeys.map (fun k => k.eth_address))⟩
  else none

def bucketNameStem : Str := "avalanche-ops-".toList

def dashStr : Str := "-".toList

/-- The aws-resources block of `Spec::default_aws` (src/lib.rs lines
405–428). -/
def awsResourcesFor (env : Env) (opt : DefaultSpecOption) : AwsResources :=
  let base := { AwsResources.default with
                region := opt.region
                s3_bucket := bucketNameStem ++ env.time6 ++ dashStr ++ env.sysId10 }
  let base := if !opt.db_backup_s3_region.isEmpty then
      { base with db_backup_s3_region := some opt.db_backup_s3_region }
    else base
  let base := if !opt.db_backup_s3_bucket.isEmpty then
      { base with db_backup_s3_bucket := some opt.db_backup_s3_bucket }
    else base
  let base := if !opt.db_backup_s3_key.isEmpty then
      { base with db_backup_s3_key := some opt.db_backup_s3_key }
    else base
  let base := if !opt.nlb_acm_certificate_arn.isEmpty then
      { base with nlb_acm_certificate_arn := some opt.nlb_acm_certificate_arn }
    else base
  let base := if opt.disable_instance_system_logs then
      { base with instance_system_logs := some false }
    else base
  if opt.disable_instance_system_metrics then
    { base with instance_system_metrics := some false }
  else base

/-- The install-artifacts block of `Spec::default_aws` (src/lib.rs lines
430–437). -/
def installArtifactsFor (opt : DefaultSpecOption) : InstallArtifacts :=
  let ia : InstallArtifacts :=
    { avalanched_bin := opt.install_artifacts_avalanched_bin
      avalanchego_bin := opt.install_artifacts_avalanche_bin
      plugins_dir := none }
  if !opt.install_artifacts_plugins_dir.isEmpty then
    { ia with plugins_dir := some opt.install_artifacts_plugins_dir }
  else ia

/-- The coreth-config block of `Spec::default_aws` (src/lib.rs lines
439–453). -/
def corethConfigFor (opt : DefaultSpecOption) : CorethConfig :=
  let c := CorethConfig.default
  let c := if opt.coreth_metrics_enabled then
      { c with metrics_enabled := some true }
    else c
  let c := if opt.coreth_continuous_profiler_enabled then
      { c with continuous_profiler_dir := some DEFAULT_PROFILE_DIR
               continuous_profiler_frequency := some DEFAULT_PROFILE_FREQUENCY
               continuous_profiler_max_files := some DEFAULT_PROFILE_MAX_FILES }
    else c
  if opt.coreth_offline_pruning_enabled then
    { c with offline_pruning_enabled := some true }
  else c

/-- Outcome of `Spec::default_aws`: a derived spec, or a Rust panic. -/
inductive DeriveResult where
  | ok (s : Spec)
  | panicked (msg : Str)
deriving DecidableEq

def DeriveResult.isPanicked : DeriveResult → Bool
  | .panicked _ => true
  | _ => false

/-- Translated from `Spec::default_aws` (src/lib.rs lines 273–474), with
the ambient effects passed as `env`.  The `.panicked` outcomes are the
panics the source itself contains: the `unwrap` on a malformed
`profile_continuous_max_files`, the `unwrap` on a stem-less
`spec_file_path`, and the `generated_seed_keys[0]` index (line 374) on an
empty key vector. -/
def Spec.default_aws (env : Env) (opt : DefaultSpecOption) : DeriveResult :=
  match buildAvagoConfig opt with
  | .error m => .panicked m
  | .ok cfg =>
    match specIdOf env opt (resolveNetworkId opt.network_name) with
    | .error m => .panicked m
    | .ok theId =>
      match (genesisAndKeys env (isCustomId (resolveNetworkId opt.network_name))
          (resolveNetworkId opt.network_name) opt.keys_to_generate) with
      | (_, []) => .panicked msgIndexOutOfBounds
      | (tmpl, k0 :: rest) =>
        .ok { id := theId
              aws_resources := some (awsResourcesFor env opt)
              machine := machineFor (resolveNetworkId opt.network_name)
              install_artifacts := installArtifactsFor opt
              avalanchego_config := cfg
              coreth_config := corethConfigFor opt
              avalanchego_genesis_template := tmpl
              subnet_evm_genesis := subnetEvmFor opt (k0 :: rest)
              generated_seed_private_key_with_locked_p_chain_balance := some k0
              generated_seed_private_keys := some rest
              current_nodes := none
              endpoints := none }

/-- Claim C6: for every option set naming an unrecognized (custom)
network with `keys_to_generate = 3`, any specification `default_aws`
produces carries exactly the 3 generated keys — key 0 in the
locked-balance slot, the remaining 2 in the unlocked pool — together with
a present genesis template for the reserved custom network id and the
default anchor count `Some 2`. -/
theorem c6_default_aws_custom_three_keys (env : Env) (opt : DefaultSpecOption)
    (s : Spec)
    (hname : lookupByName NETWORK_NAME_TO_NETWORK_ID opt.network_name = none)
    (hkeys : opt.keys_to_generate = 3)
    (hok : Spec.default_aws env opt = DeriveResult.ok s) :
    (genSeedKeys env 3).length = 3 ∧
    s.generated_seed_private_key_with_locked_p_chain_balance =
      some (seedKeyAt env 0) ∧
    s.generated_seed_private_keys = some [seedKeyAt env 1, seedKeyAt env 2] ∧
    s.avalanchego_genesis_template = some ⟨DEFAULT_CUSTOM_NETWORK_ID⟩ ∧
    s.machine.anchor_nodes = some DEFAULT_MACHINE_ANCHOR_NODES ∧
    DEFAULT_MACHINE_ANCHOR_NODES = 2 := by
  have hres : resolveNetworkId opt.network_name = DEFAULT_CUSTOM_NETWORK_ID := by
    unfold resolveNetworkId
    rw [hname]
  unfold Spec.default_aws at hok
  rw [hres, hkeys] at hok
  cases hb : buildAvagoConfig opt with
  | error m =>
    rw [hb] at hok
    exact absurd hok (by simp)
  | ok cfg =>
    rw [hb] at hok
    cases hi : specIdOf env opt DEFAULT_CUSTOM_NETWORK_ID with
    | error m =>
      rw [hi] at hok
      exact absurd hok (by simp)
    | ok theId =>
      rw [hi] at hok
      have hok2 : DeriveResult.ok
          { id := theId
            aws_resources := some (awsResourcesFor env opt)
            machine := machineFor DEFAULT_CUSTOM_NETWORK_ID
            install_artifacts := installArtifactsFor opt
            avalanchego_config := cfg
            coreth_config := corethConfigFor opt
            avalanchego_genesis_template := some ⟨DEFAULT_CUSTOM_NETWORK_ID⟩
            subnet_evm_genesis := subnetEvmFor opt
              [seedKeyAt env 0, seedKeyAt env 1, seedKeyAt env 2]
            generated_seed_private_key_with_locked_p_chain_balance :=
              some (seedKeyAt env 0)
            generated_seed_private_keys :=
              some [seedKeyAt env 1, seedKeyAt env 2]
            current_nodes := none
            endpoints := none } = DeriveResult.ok s := hok
      injection hok2 with hs
      subst hs
      exact ⟨rfl, rfl, rfl, rfl, rfl, rfl⟩

/-- Claim C9: `default_aws` requires at least one generated key; with
`keys_to_generate = 0` the derivation panics (for benign other options,
on the unconditional `generated_seed_keys[0]` index) instead of
returning a specification or a typed error. -/
theorem c9_default_aws_zero_keys_panics (env : Env) (opt : DefaultSpecOption)
    (h : opt.keys_to_generate = 0) :
    DeriveResult.isPanicked (Spec.default_aws env opt) = true := by
  unfold Spec.default_aws
  rw [h]
  cases hb : buildAvagoConfig opt with
  | error m => rfl
  | ok cfg =>
    cases hi : specIdOf env opt (resolveNetworkId opt.network_name) with
    | error m => rfl
    | ok theId =>
      cases hcust : isCustomId (resolveNetworkId opt.network_name) with
      | true => rfl
      | false => rfl

def genAddrEx : Str := "0xabc0000000000000000000000000000000000001".toList

def time6Ex : Str := "220101".toList

def sysIdEx : Str := "abcdefghij".toList

/-- A concrete environment: constant fresh keys, identity time-id, fixed
date stamp and host id. -/
def envEx : Env :=
  { genKey := fun _ => ⟨genAddrEx⟩
    timeId := fun s => s
    time6 := time6Ex
    sysId10 := sysIdEx }

def customNetName : Str := "my-custom-net".toList

/-- A concrete option set: unrecognized network name, 3 keys, every other
option empty or disabled. -/
def optEx : DefaultSpecOption :=
  { log_level := []
    network_name := customNetName
    keys_to_generate := 3
    region := exRegionStr
    db_backup_s3_region := []
    db_backup_s3_bucket := []
    db_backup_s3_key := []
    nlb_acm_certificate_arn := []
    install_artifacts_avalanched_bin := exAvalanchedPath
    install_artifacts_avalanche_bin := exAvalanchegoPath
    install_artifacts_plugins_dir := []
    avalanchego_log_level := []
    avalanchego_whitelisted_subnets := []
    avalanchego_http_tls_enabled := false
    avalanchego_state_sync_ids := []
    avalanchego_state_sync_ips := []
    avalanchego_profile_continuous_enabled := false
    avalanchego_profile_continuous_freq := []
    avalanchego_profile_continuous_max_files := []
    coreth_metrics_enabled := false
    coreth_continuous_profiler_enabled := false
    coreth_offline_pruning_enabled := false
    enable_subnet_evm := false
    disable_instance_system_logs := false
    disable_instance_system_metrics := false
    spec_file_path := [] }

/-- The spec `default_aws` derives from `envEx`/`optEx` (with a fallback
never taken, as the first conjunct of the witness shows). -/
def exSpec6 : Spec :=
  match Spec.default_aws envEx optEx with
  | .ok s => s
  | .panicked _ => baseSpecKnown

/-- Witness for C6 at the concrete option set. -/
theorem c6_witness :
    Spec.default_aws envEx optEx = DeriveResult.ok exSpec6 ∧
    exSpec6.generated_seed_private_key_with_locked_p_chain_balance =
      some (seedKeyAt envEx 0) ∧
    exSpec6.generated_seed_private_keys =
      some [seedKeyAt envEx 1, seedKeyAt envEx 2] ∧
    exSpec6.avalanchego_genesis_template = some ⟨DEFAULT_CUSTOM_NETWORK_ID⟩ ∧
    exSpec6.machine.anchor_nodes = some 2 :=
  ⟨rfl,
   (c6_default_aws_custom_three_keys envEx optEx exSpec6
     (by decide) rfl rfl).2.1,
   (c6_default_aws_custom_three_keys envEx optEx exSpec6
     (by decide) rfl rfl).2.2.1,
   (c6_default_aws_custom_three_keys envEx optEx exSpec6
     (by decide) rfl rfl).2.2.2.1,
   (c6_default_aws_custom_three_keys envEx optEx exSpec6
     (by decide) rfl rfl).2.2.2.2.1⟩

def optEx0 : DefaultSpecOption := { optEx with keys_to_generate := 0 }

/-- Witness for C9 at the concrete option set with zero keys. -/
theorem c9_witness :
    DeriveResult.isPanicked (Spec.default_aws envEx optEx0) = true :=
  c9_default_aws_zero_keys_panics envEx optEx0 rfl

/-! ## The stack lifecycle manager (examples/aws_cloudformation_ec2_instance_role.rs)

`cloudformation::Manager` lives in `src/aws/cloudformation.rs`, which is
not among the provided sources; only its caller — the example driver that
deletes a stack name that was never created and asserts success — is.
Modelled from the spec (§4.4). -/

/-- The stack status values of the collaborator interface (spec §6). -/
inductive StackStatus where
  | createInProgress
  | createComplete
  | createFailed
  | deleteInProgress
  | deleteComplete
deriving DecidableEq

/-- The collaborator-side world: the stacks that currently exist, by
name. -/
structure CfnWorld where
  entries : List (Str × StackStatus)
deriving DecidableEq

/-- Modelled from the spec (§4.4): `Manager::delete_stack(name)` issues a
deletion request and succeeds even if the stack does not currently exist
(idempotent — deletion of an absent resource is not an error); an
existing stack moves to the delete-in-progress status, an absent name
changes nothing. -/
def deleteStack (w : CfnWorld) (name : Str) : Except Str Unit × CfnWorld :=
  (Except.ok (),
   ⟨w.entries.map (fun p => if p.1 = name then (p.1, StackStatus.deleteInProgress) else p)⟩)

/-- Claim C7: deleting a stack name that never existed returns success,
not an error — and leaves the world unchanged. -/
theorem c7_delete_absent_stack_ok (w : CfnWorld) (name : Str)
    (habs : ∀ p ∈ w.entries, p.1 ≠ name) :
    (deleteStack w name).1 = Except.ok () ∧ (deleteStack w name).2 = w := by
  refine ⟨rfl, ?_⟩
  unfold deleteStack
  have hmap : ∀ (l : List (Str × StackStatus)), (∀ p ∈ l, p.1 ≠ name) →
      l.map (fun p => if p.1 = name then (p.1, StackStatus.deleteInProgress) else p) =
      l := by
    intro l
    induction l with
    | nil => intro _; rfl
    | cons p t ih =>
      intro hl
      simp only [List.map_cons]
      rw [if_neg (hl p (List.mem_cons_self p t))]
      rw [ih (fun q hq => hl q (List.mem_cons_of_mem p hq))]
  simp [hmap w.entries habs]

def exStackName : Str := "test-ec2-instance-role".toList

/-- Witness for C7: deleting from an empty world succeeds. -/
theorem c7_witness :
    (deleteStack ⟨[]⟩ exStackName).1 = Except.ok () ∧
    (deleteStack ⟨[]⟩ exStackName).2 = (⟨[]⟩ : CfnWorld) :=
  c7_delete_absent_stack_ok ⟨[]⟩ exStackName (by simp)

/-! ## The health prober (src/avalanche/avalanchego/api/health.rs) -/

/-- The health report shape (health.rs lines 18–41); timestamps carried
as their source strings. -/
structure CheckResult where
  error : Option Str
  timestamp : Str
  duration : Option Int
  contiguous_failures : Option Int
  time_of_first_failure : Option Str
deriving DecidableEq

/-- health.rs `Response`. -/
structure HealthResponse where
  checks : Option (List (Str × CheckResult))
  healthy : Option Bool
deriving DecidableEq

def livenessPathC : Str := "ext/health/liveness".toList

def healthPathC : Str := "ext/health".toList

/-- Translated from the `url_path` selection at the top of `check`
(health.rs lines 87–93). -/
def healthUrlPath (liveness : Bool) : Str :=
  if liveness then livenessPathC else healthPathC

def msgInvalidJson : Str := "invalid JSON".toList

def msgFailedDecode : Str := "failed to decode".toList

/-- Translated from `Response::parse_from_str` (health.rs lines 66–70):
the serde_json decoder for the report shape is an external collaborator,
passed explicitly as `dec`; a decode failure becomes an `InvalidInput`
error carrying the "invalid JSON" message. -/
def parse_from_str (dec : Str → Option HealthResponse) (s : Str) :
    Except (ErrKind × Str) HealthResponse :=
  match dec s with
  | some r => Except.ok r
  | none => Except.error (ErrKind.invalidInput, msgInvalidJson)

/-- Translated from the body-decoding branch of `check` (health.rs lines
107–115 and 125–133): a decode failure of the fetched bytes becomes an
`Other`-kind "failed to decode" error. -/
def checkDecodeBody (dec : Str → Option HealthResponse) (body : Str) :
    Except (ErrKind × Str) HealthResponse :=
  match dec body with
  | some p => Except.ok p
  | none => Except.error (ErrKind.other, msgFailedDecode)

/-- Claim C8: the prober targets `ext/health/liveness` when the liveness
flag is set and `ext/health` otherwise; and whenever the report decoder
rejects an input string, `Response::parse_from_str` fails with the
invalid-JSON decode error (and the body-decoding branch of `check` with
its failed-to-decode error) instead of returning a report. -/
theorem c8_health_paths_and_decode_errors :
    healthUrlPath true = livenessPathC ∧
    healthUrlPath false = healthPathC ∧
    (∀ (dec : Str → Option HealthResponse) (s : Str), dec s = none →
      parse_from_str dec s = Except.error (ErrKind.invalidInput, msgInvalidJson)) ∧
    (∀ (dec : Str → Option HealthResponse) (s : Str), dec s = none →
      checkDecodeBody dec s = Except.error (ErrKind.other, msgFailedDecode)) := by
  refine ⟨rfl, rfl, ?_, ?_⟩
  · intro dec s h
    unfold parse_from_str
    rw [h]
  · intro dec s h
    unfold checkDecodeBody
    rw [h]

def decNone : Str → Option HealthResponse := fun _ => none

def exBadJson : Str := "this is not json".toList

/-- Witness for C8 at a decoder that rejects everything and a concrete
non-JSON string. -/
theorem c8_witness :
    healthUrlPath true = livenessPathC ∧
    parse_from_str decNone exBadJson =
      Except.error (ErrKind.invalidInput, msgInvalidJson) ∧
    checkDecodeBody decNone exBadJson =
      Except.error (ErrKind.other, msgFailedDecode) :=
  ⟨c8_health_paths_and_decode_errors.1,
   c8_health_paths_and_decode_errors.2.2.1 decNone exBadJson rfl,
   c8_health_paths_and_decode_errors.2.2.2 decNone exBadJson rfl⟩

end AvaOps
